import Mathlib

/-!
Shallow embedding of `rest_framework_bulk/drf3/mixins.py` from
django-rest-framework-bulk (drf3 mixins), together with proofs about the
behaviour of its three mixins: `BulkCreateModelMixin`, `BulkUpdateModelMixin`
and `BulkDestroyModelMixin`.

Modelling choices:
* A database row is a `Record` (primary key plus a field map); the database
  is a `List Record`.
* A request-body item (a JSON mapping) is an `Item`: an association list from
  string keys to natural-number values.  `item['id']` is `List.lookup "id"`,
  which raises `KeyError` (modelled by `UpdateAbort.keyError`) when absent.
* Per-item serializer behaviour is parametrised by `isValid : Item → Bool`
  (the boolean `item_serializer.is_valid()`) and
  `errorsOf : Item → ErrSet` (the `.errors` attribute of an invalid
  serializer).  Persistence (`serializer.save()`) is a parameter
  `applySave : Db → List Fields → Db`; `bulk_update` reports how many times
  it invoked it.
* Python exceptions (`Http404` from `get_object_or_404`, `KeyError`,
  `ValidationError`) are embedded with `Except` / explicit result
  constructors, propagating exactly where the source would propagate them.
* Python object identity (`is not`) of querysets is modelled by an `oid`
  tag on `QuerySet`.
-/

abbrev Fields := List (String × Nat)

structure Record where
  rid : Nat
  flds : Fields
deriving DecidableEq, Repr

abbrev Db := List Record

structure Item where
  flds : Fields
deriving DecidableEq, Repr

/-- Error detail of one invalid item (`item_serializer.errors`). -/
abbrev ErrSet := List String

/-- View configuration: `lookup_field` and `lookup_url_kwarg` attributes of
the generic view.  Note that `bulk_update` never consults it. -/
structure ViewConfig where
  lookup_field : String
  lookup_url_kwarg : Option String
deriving DecidableEq, Repr

/-- Exceptions that can escape the per-item loop of `bulk_update`:
`KeyError` from `item['id']` and `Http404` from `get_object_or_404`. -/
inductive UpdateAbort
| keyError
| http404
deriving DecidableEq, Repr

/-- Embedding of `item['id']`: a mapping access that raises `KeyError`
when the key `'id'` is absent (mixins.py line 88). -/
def getItemId (it : Item) : Except UpdateAbort Nat :=
  match List.lookup "id" it.flds with
  | some v => Except.ok v
  | none => Except.error UpdateAbort.keyError

/-- Embedding of Django's `get_object_or_404(queryset, pk=...)`: return the
record with the given primary key, or raise `Http404`. -/
def get_object_or_404 (qs : List Record) (pk : Nat) : Except UpdateAbort Record :=
  match qs.find? (fun r => r.rid == pk) with
  | some r => Except.ok r
  | none => Except.error UpdateAbort.http404

/-- The per-item loop of `bulk_update` (mixins.py lines 84-92): for each
item, fetch the object by `item['id']` from the filtered queryset, run the
boolean validity check, append the errors of invalid items to
`validation_errors` and append each item's `validated_data` (which is the
empty mapping for an invalid serializer) to `validated_data`. -/
def validateItems (isValid : Item → Bool) (errorsOf : Item → ErrSet)
    (filterPred : Record → Bool) (db : Db) :
    List Item → Except UpdateAbort (List ErrSet × List Fields)
  | [] => Except.ok ([], [])
  | it :: rest =>
    match getItemId it with
    | Except.error e => Except.error e
    | Except.ok pk =>
      match get_object_or_404 (db.filter filterPred) pk with
      | Except.error e => Except.error e
      | Except.ok _obj =>
        match validateItems isValid errorsOf filterPred db rest with
        | Except.error e => Except.error e
        | Except.ok (errs, vds) =>
          Except.ok
            ((if isValid it then errs else errorsOf it :: errs),
             (if isValid it then it.flds else []) :: vds)

/-- Outcome of a `bulk_update` request. -/
inductive UpdateResult
| keyError
| notFound404
| validationError (errs : List ErrSet)
| ok (status : Nat)
deriving DecidableEq, Repr

/-- Embedding of `BulkUpdateModelMixin.bulk_update` (mixins.py lines 68-97).
Returns the HTTP-level outcome, the resulting database and the number of
times the batch serializer's save was invoked
(`perform_bulk_update` → `perform_update` → `serializer.save()`).
The `cfg` parameter carries the view's configured lookup field; the method
never reads it (the id key `'id'` is hardcoded). -/
def bulk_update (cfg : ViewConfig) (isValid : Item → Bool)
    (errorsOf : Item → ErrSet) (filterPred : Record → Bool)
    (applySave : Db → List Fields → Db) (db : Db) (items : List Item) :
    UpdateResult × Db × Nat :=
  match validateItems isValid errorsOf filterPred db items with
  | Except.error UpdateAbort.keyError => (UpdateResult.keyError, db, 0)
  | Except.error UpdateAbort.http404 => (UpdateResult.notFound404, db, 0)
  | Except.ok (errs, vds) =>
    match errs with
    | [] => (UpdateResult.ok 200, applySave db vds, 1)
    | e :: es => (UpdateResult.validationError (e :: es), db, 0)

/-- Per-item precondition under which the loop body raises nothing for this
item: the `'id'` key is present and the pk resolves in the filtered
queryset. -/
def lookupOk (filterPred : Record → Bool) (db : Db) (it : Item) : Bool :=
  match List.lookup "id" it.flds with
  | none => false
  | some pk => ((db.filter filterPred).find? (fun r => r.rid == pk)).isSome

theorem validateItems_all_ok (isValid : Item → Bool) (errorsOf : Item → ErrSet)
    (filterPred : Record → Bool) (db : Db) (items : List Item)
    (h : ∀ it ∈ items, lookupOk filterPred db it = true) :
    validateItems isValid errorsOf filterPred db items
      = Except.ok ((items.filter (fun it => !isValid it)).map errorsOf,
                   items.map (fun it => if isValid it then it.flds else [])) := by
  induction items with
  | nil => rfl
  | cons it rest ih =>
    have hhead := h it (List.mem_cons_self it rest)
    have htail : ∀ x ∈ rest, lookupOk filterPred db x = true :=
      fun x hx => h x (List.mem_cons_of_mem _ hx)
    unfold lookupOk at hhead
    cases hl : List.lookup "id" it.flds with
    | none => rw [hl] at hhead; simp at hhead
    | some pk =>
      rw [hl] at hhead
      cases hf : (db.filter filterPred).find? (fun r => r.rid == pk) with
      | none => simp [hf] at hhead
      | some obj =>
        by_cases hv : isValid it
        · simp [validateItems, getItemId, hl, get_object_or_404, hf,
            ih htail, List.filter_cons, hv]
        · simp [validateItems, getItemId, hl, get_object_or_404, hf,
            ih htail, List.filter_cons, hv]

theorem validateItems_http404 (isValid : Item → Bool) (errorsOf : Item → ErrSet)
    (filterPred : Record → Bool) (db : Db) (items : List Item)
    (hkeys : ∀ it ∈ items, (List.lookup "id" it.flds).isSome = true)
    (hmiss : ∃ it ∈ items, lookupOk filterPred db it = false) :
    validateItems isValid errorsOf filterPred db items
      = Except.error UpdateAbort.http404 := by
  induction items with
  | nil => simp at hmiss
  | cons it rest ih =>
    have hk := hkeys it (List.mem_cons_self it rest)
    cases hl : List.lookup "id" it.flds with
    | none => rw [hl] at hk; simp at hk
    | some pk =>
      cases hf : (db.filter filterPred).find? (fun r => r.rid == pk) with
      | none =>
        simp [validateItems, getItemId, hl, get_object_or_404, hf]
      | some obj =>
        have hrest : ∃ x ∈ rest, lookupOk filterPred db x = false := by
          obtain ⟨x, hx, hxf⟩ := hmiss
          rcases List.mem_cons.mp hx with hcase | hcase
          · subst hcase
            exfalso
            unfold lookupOk at hxf
            rw [hl] at hxf
            simp [hf] at hxf
          · exact ⟨x, hcase, hxf⟩
        have hrec := ih (fun x hx => hkeys x (List.mem_cons_of_mem _ hx)) hrest
        simp [validateItems, getItemId, hl, get_object_or_404, hf, hrec]

theorem validateItems_keyError (isValid : Item → Bool) (errorsOf : Item → ErrSet)
    (filterPred : Record → Bool) (db : Db) (pre : List Item) (bad : Item)
    (rest : List Item)
    (hbad : List.lookup "id" bad.flds = none)
    (hpre : ∀ it ∈ pre, lookupOk filterPred db it = true) :
    validateItems isValid errorsOf filterPred db (pre ++ bad :: rest)
      = Except.error UpdateAbort.keyError := by
  induction pre with
  | nil => simp [validateItems, getItemId, hbad]
  | cons p ps ih =>
    have hp := hpre p (List.mem_cons_self p ps)
    unfold lookupOk at hp
    cases hl : List.lookup "id" p.flds with
    | none => rw [hl] at hp; simp at hp
    | some pk =>
      rw [hl] at hp
      cases hf : (db.filter filterPred).find? (fun r => r.rid == pk) with
      | none => simp [hf] at hp
      | some obj =>
        have hrec := ih (fun x hx => hpre x (List.mem_cons_of_mem _ hx))
        simp [validateItems, getItemId, hl, get_object_or_404, hf, hrec]

theorem bulkUpdateInvalidAux (cfg : ViewConfig) (isValid : Item → Bool)
    (errorsOf : Item → ErrSet) (filterPred : Record → Bool)
    (applySave : Db → List Fields → Db) (db : Db) (items : List Item)
    (hlk : ∀ it ∈ items, lookupOk filterPred db it = true)
    (hinv : ∃ it ∈ items, isValid it = false) :
    bulk_update cfg isValid errorsOf filterPred applySave db items
      = (UpdateResult.validationError
           ((items.filter (fun it => !isValid it)).map errorsOf), db, 0) := by
  unfold bulk_update
  rw [validateItems_all_ok isValid errorsOf filterPred db items hlk]
  obtain ⟨x, hmem, hxv⟩ := hinv
  have hne : items.filter (fun it => !isValid it) ≠ [] := by
    intro hnil
    have hx : x ∈ items.filter (fun it => !isValid it) :=
      List.mem_filter.mpr ⟨hmem, by simp [hxv]⟩
    rw [hnil] at hx
    simp at hx
  cases hE : (items.filter (fun it => !isValid it)).map errorsOf with
  | nil =>
    exact absurd (List.map_eq_nil_iff.mp hE) hne
  | cons e es =>
    simp [hE]

/-- Concrete database used to exercise the update path: two records with
primary keys 1 and 2. -/
def uDb : Db := [Record.mk 1 [], Record.mk 2 []]

/-- Concrete two-item batch: the item with id 1 carries the invalid value
`("v", 0)`, the item with id 2 a valid one. -/
def uItems : List Item :=
  [Item.mk [("id", 1), ("v", 0)], Item.mk [("id", 2), ("v", 1)]]

/-- Concrete per-item validity check: an item is invalid exactly when its
`"v"` field is 0. -/
def uIsValid : Item → Bool := fun it => List.lookup "v" it.flds != some 0

/-- Concrete error detail produced for an invalid item. -/
def uErrors : Item → ErrSet := fun _ => ["invalid"]

/-- Concrete filter backend that keeps every record. -/
def uFilter : Record → Bool := fun _ => true

/-- Concrete save action (identity, sufficient for the error paths). -/
def uSave : Db → List Fields → Db := fun d _ => d

/-- Concrete view configuration. -/
def uCfg : ViewConfig := ViewConfig.mk "id" none

/-- C1 counterexample: for the two-item batch `uItems` whose first item
fails validation and whose lookups all succeed, the aggregate error payload
is `[["invalid"]]` of length 1, not a length-2 sequence with a
present-but-empty entry at the valid position: `bulk_update` appends to
`validation_errors` only for items whose `is_valid()` is false, so valid
items contribute no entry at all. -/
theorem bulk_update_payload_not_positional :
    (bulk_update uCfg uIsValid uErrors uFilter uSave uDb uItems).1
      = UpdateResult.validationError [["invalid"]]
    ∧ uItems.length = 2
    ∧ ¬ ([["invalid"]] : List ErrSet).length = 2 := by
  constructor
  · rfl
  · exact ⟨rfl, by decide⟩

/-- C1 (amended): for a bulk update batch whose lookups all succeed and in
which some item fails validation, the request fails with an aggregate
validation error whose payload lists, in batch order, the error sets of
exactly the items that failed validation; valid items contribute no entry,
so the payload length is the number of invalid items rather than the batch
length.  No save is performed and the database is unchanged. -/
theorem bulk_update_error_payload_only_failures (cfg : ViewConfig)
    (isValid : Item → Bool) (errorsOf : Item → ErrSet)
    (filterPred : Record → Bool) (applySave : Db → List Fields → Db)
    (db : Db) (items : List Item)
    (hlk : ∀ it ∈ items, lookupOk filterPred db it = true)
    (hinv : ∃ it ∈ items, isValid it = false) :
    bulk_update cfg isValid errorsOf filterPred applySave db items
      = (UpdateResult.validationError
           ((items.filter (fun it => !isValid it)).map errorsOf), db, 0) :=
  bulkUpdateInvalidAux cfg isValid errorsOf filterPred applySave db items hlk hinv

/-- Witness for the amended C1 theorem at the concrete batch `uItems`. -/
theorem bulk_update_error_payload_only_failures_witness :
    bulk_update uCfg uIsValid uErrors uFilter uSave uDb uItems
      = (UpdateResult.validationError
           ((uItems.filter (fun it => !uIsValid it)).map uErrors), uDb, 0) :=
  bulk_update_error_payload_only_failures uCfg uIsValid uErrors uFilter uSave
    uDb uItems (by decide) (by decide)

/-- C2: for a bulk update batch whose lookups all succeed and in which some
item fails its per-item validation, `bulk_update` raises the aggregate
`ValidationError`, the batch serializer's save is never invoked (save count
0) and the database is returned unmodified: no partial persistence. -/
theorem bulk_update_invalid_no_save (cfg : ViewConfig)
    (isValid : Item → Bool) (errorsOf : Item → ErrSet)
    (filterPred : Record → Bool) (applySave : Db → List Fields → Db)
    (db : Db) (items : List Item)
    (hlk : ∀ it ∈ items, lookupOk filterPred db it = true)
    (hinv : ∃ it ∈ items, isValid it = false) :
    ∃ errs, bulk_update cfg isValid errorsOf filterPred applySave db items
      = (UpdateResult.validationError errs, db, 0) :=
  ⟨(items.filter (fun it => !isValid it)).map errorsOf,
   bulkUpdateInvalidAux cfg isValid errorsOf filterPred applySave db items hlk hinv⟩

/-- Witness for C2 at the concrete batch `uItems`. -/
theorem bulk_update_invalid_no_save_witness :
    ∃ errs, bulk_update uCfg uIsValid uErrors uFilter uSave uDb uItems
      = (UpdateResult.validationError errs, uDb, 0) :=
  bulk_update_invalid_no_save uCfg uIsValid uErrors uFilter uSave uDb uItems
    (by decide) (by decide)

/-- C3: when every lookup of the batch succeeds, the per-item loop of
`bulk_update` terminates normally (it never raises on an individual
validation failure): every item's boolean validity check is evaluated, the
errors of all invalid items are collected into the accumulator in batch
order, and each item contributes its validated data (the empty mapping for
invalid items).  The aggregate failure can therefore only be raised after
every item has been processed. -/
theorem bulk_update_validates_every_item (isValid : Item → Bool)
    (errorsOf : Item → ErrSet) (filterPred : Record → Bool) (db : Db)
    (items : List Item)
    (hlk : ∀ it ∈ items, lookupOk filterPred db it = true) :
    validateItems isValid errorsOf filterPred db items
      = Except.ok ((items.filter (fun it => !isValid it)).map errorsOf,
                   items.map (fun it => if isValid it then it.flds else [])) :=
  validateItems_all_ok isValid errorsOf filterPred db items hlk

/-- Witness for C3 at the concrete batch `uItems`. -/
theorem bulk_update_validates_every_item_witness :
    validateItems uIsValid uErrors uFilter uDb uItems
      = Except.ok ((uItems.filter (fun it => !uIsValid it)).map uErrors,
                   uItems.map (fun it => if uIsValid it then it.flds else [])) :=
  bulk_update_validates_every_item uIsValid uErrors uFilter uDb uItems (by decide)

/-- C7: a bulk update batch in which every item carries an `'id'` key but
some item's id does not resolve in the filtered queryset aborts with the
`Http404` raised by `get_object_or_404`; the abort happens inside the
per-item loop, before the batch save is reached, so the save count is 0 and
the database is unmodified. -/
theorem bulk_update_missing_pk_aborts_404 (cfg : ViewConfig)
    (isValid : Item → Bool) (errorsOf : Item → ErrSet)
    (filterPred : Record → Bool) (applySave : Db → List Fields → Db)
    (db : Db) (items : List Item)
    (hkeys : ∀ it ∈ items, (List.lookup "id" it.flds).isSome = true)
    (hmiss : ∃ it ∈ items, lookupOk filterPred db it = false) :
    bulk_update cfg isValid errorsOf filterPred applySave db items
      = (UpdateResult.notFound404, db, 0) := by
  unfold bulk_update
  rw [validateItems_http404 isValid errorsOf filterPred db items hkeys hmiss]

/-- Witness for C7: a one-item batch whose id 3 is absent from `uDb`. -/
theorem bulk_update_missing_pk_aborts_404_witness :
    bulk_update uCfg uIsValid uErrors uFilter uSave uDb [Item.mk [("id", 3)]]
      = (UpdateResult.notFound404, uDb, 0) :=
  bulk_update_missing_pk_aborts_404 uCfg uIsValid uErrors uFilter uSave uDb
    [Item.mk [("id", 3)]] (by decide) (by decide)

/-- C10: `bulk_update` reads each item's identifier from the hardcoded key
`'id'`, independently of the view's configured lookup field (the result is
the same for any two view configurations); an item that lacks the `'id'`
key (all earlier items looking up fine) aborts the whole request with a
`KeyError` — a plain key-lookup error, a constructor distinct from the
structured `validationError` — before any save is performed and with the
database unchanged. -/
theorem bulk_update_hardcoded_id_key (cfg cfg' : ViewConfig)
    (isValid : Item → Bool) (errorsOf : Item → ErrSet)
    (filterPred : Record → Bool) (applySave : Db → List Fields → Db)
    (db : Db) (pre : List Item) (bad : Item) (rest : List Item)
    (hbad : List.lookup "id" bad.flds = none)
    (hpre : ∀ it ∈ pre, lookupOk filterPred db it = true) :
    bulk_update cfg isValid errorsOf filterPred applySave db (pre ++ bad :: rest)
      = (UpdateResult.keyError, db, 0)
    ∧ bulk_update cfg isValid errorsOf filterPred applySave db (pre ++ bad :: rest)
      = bulk_update cfg' isValid errorsOf filterPred applySave db (pre ++ bad :: rest)
    ∧ ∀ errs, UpdateResult.keyError ≠ UpdateResult.validationError errs := by
  refine ⟨?_, rfl, fun errs h => UpdateResult.noConfusion h⟩
  unfold bulk_update
  rw [validateItems_keyError isValid errorsOf filterPred db pre bad rest hbad hpre]

/-- Witness for C10: a one-item batch whose item carries its identifier
under the key `"pk"` and not `"id"`, even though the view's lookup field is
`"pk"`. -/
theorem bulk_update_hardcoded_id_key_witness :
    bulk_update (ViewConfig.mk "pk" none) uIsValid uErrors uFilter uSave uDb
      ([] ++ Item.mk [("pk", 1)] :: [])
      = (UpdateResult.keyError, uDb, 0) :=
  (bulk_update_hardcoded_id_key (ViewConfig.mk "pk" none) uCfg uIsValid uErrors
    uFilter uSave uDb [] (Item.mk [("pk", 1)]) [] (by decide) (by decide)).1

/-- A Django queryset as seen by `bulk_destroy`: the records it denotes plus
an `oid` tag standing for the Python object's identity, so that `is not`
can be expressed. -/
structure QuerySet where
  oid : Nat
  recs : List Record
deriving DecidableEq, Repr

/-- Embedding of `BulkDestroyModelMixin.allow_bulk_destroy` (mixins.py
lines 114-121): `return qs is not filtered`, an object-identity test. -/
def allow_bulk_destroy (qs filtered : QuerySet) : Bool :=
  qs.oid != filtered.oid

/-- HTTP response of a destroy request; both `Response(status=400)` and
`Response(status=204)` are constructed without a body. -/
structure DestroyResponse where
  status : Nat
  body : Option (List ErrSet)
deriving DecidableEq, Repr

/-- Embedding of `BulkDestroyModelMixin.perform_destroy`:
`instance.delete()` removes the record from the database. -/
def perform_destroy (db : Db) (inst : Record) : Db :=
  db.filter (fun r => r ≠ inst)

/-- Embedding of `BulkDestroyModelMixin.perform_bulk_destroy` (mixins.py
lines 137-139): one independent `perform_destroy` call per object. -/
def perform_bulk_destroy (db : Db) (objects : List Record) : Db :=
  objects.foldl perform_destroy db

/-- Embedding of `BulkDestroyModelMixin.bulk_destroy` (mixins.py lines
123-132), parametrised by the view's `get_queryset` and `filter_queryset`. -/
def bulk_destroy (getQS : Db → QuerySet) (filterQS : QuerySet → QuerySet)
    (db : Db) : DestroyResponse × Db :=
  let qs := getQS db
  let filtered := filterQS qs
  if !(allow_bulk_destroy qs filtered) then
    (DestroyResponse.mk 400 none, db)
  else
    (DestroyResponse.mk 204 none, perform_bulk_destroy db filtered.recs)

theorem mem_perform_bulk_destroy {x : Record} (objects : List Record) (db : Db)
    (h : x ∈ perform_bulk_destroy db objects) : x ∈ db := by
  induction objects generalizing db with
  | nil => exact h
  | cons o os ih =>
    have hx := ih (perform_destroy db o) h
    exact (List.mem_filter.mp hx).1

theorem destroyed_not_mem {r : Record} (objects : List Record) (db : Db)
    (h : r ∈ objects) : r ∉ perform_bulk_destroy db objects := by
  induction objects generalizing db with
  | nil => simp at h
  | cons o os ih =>
    rcases List.mem_cons.mp h with hcase | hcase
    · subst hcase
      intro hmem
      have hx := mem_perform_bulk_destroy os (perform_destroy db r) hmem
      exact absurd hx (by simp [perform_destroy])
    · exact ih (perform_destroy db o) hcase

/-- C4: for every `get_queryset` / `filter_queryset` pair, the default
guard accepts exactly when the filtered queryset is a distinct object
(different identity) from the unfiltered base queryset; on rejection the
response is 400 with no body and the database is untouched; on acceptance
every object of the filtered queryset is deleted by the fold of independent
`perform_destroy` calls and the response is 204. -/
theorem bulk_destroy_spec (getQS : Db → QuerySet)
    (filterQS : QuerySet → QuerySet) (db : Db) :
    (allow_bulk_destroy (getQS db) (filterQS (getQS db)) = true
       ↔ (getQS db).oid ≠ (filterQS (getQS db)).oid)
    ∧ (allow_bulk_destroy (getQS db) (filterQS (getQS db)) = false →
         bulk_destroy getQS filterQS db = (DestroyResponse.mk 400 none, db))
    ∧ (allow_bulk_destroy (getQS db) (filterQS (getQS db)) = true →
         bulk_destroy getQS filterQS db
           = (DestroyResponse.mk 204 none,
              perform_bulk_destroy db (filterQS (getQS db)).recs)
         ∧ ∀ r ∈ (filterQS (getQS db)).recs,
             r ∉ perform_bulk_destroy db (filterQS (getQS db)).recs) := by
  refine ⟨?_, ?_, ?_⟩
  · simp [allow_bulk_destroy]
  · intro hguard
    simp [bulk_destroy, hguard]
  · intro hguard
    refine ⟨by simp [bulk_destroy, hguard], ?_⟩
    intro r hr
    exact destroyed_not_mem (filterQS (getQS db)).recs db hr

/-- Base queryset constructor used in the destroy examples: object identity
tag 0, denoting the whole database. -/
def dGetQS : Db → QuerySet := fun db => QuerySet.mk 0 db

/-- A `filter_queryset` with no effective filtering: it returns a fresh
queryset object (identity tag 1) denoting exactly the same records. -/
def dFilterAll : QuerySet → QuerySet := fun qs => QuerySet.mk 1 qs.recs

/-- A `filter_queryset` that returns the very same queryset object. -/
def dFilterSame : QuerySet → QuerySet := fun qs => qs

/-- Witness for C4, exercising both branches: with `dFilterSame` the guard
rejects (400, database untouched); with `dFilterAll` the guard accepts and
the filtered records are destroyed. -/
theorem bulk_destroy_spec_witness :
    bulk_destroy dGetQS dFilterSame uDb = (DestroyResponse.mk 400 none, uDb)
    ∧ bulk_destroy dGetQS dFilterAll uDb
        = (DestroyResponse.mk 204 none,
           perform_bulk_destroy uDb (dFilterAll (dGetQS uDb)).recs) :=
  ⟨(bulk_destroy_spec dGetQS dFilterSame uDb).2.1 (by decide),
   ((bulk_destroy_spec dGetQS dFilterAll uDb).2.2 (by decide)).1⟩

/-- C9: the pair `dGetQS uDb` / `dFilterAll (dGetQS uDb)` denotes exactly
the same records while being distinct objects (different identity tags), as
happens for a filter that matches every record; the default guard accepts
it, and `bulk_destroy` then deletes every record of the collection, leaving
the database empty. -/
theorem bulk_destroy_filter_all_passes :
    (dFilterAll (dGetQS uDb)).recs = (dGetQS uDb).recs
    ∧ (dGetQS uDb).oid ≠ (dFilterAll (dGetQS uDb)).oid
    ∧ allow_bulk_destroy (dGetQS uDb) (dFilterAll (dGetQS uDb)) = true
    ∧ bulk_destroy dGetQS dFilterAll uDb = (DestroyResponse.mk 204 none, []) := by
  refine ⟨rfl, by decide, by decide, ?_⟩
  rfl

/-- The request body of a POST to the create endpoint: either a single
mapping or a list of mappings (`isinstance(request.data, list)`
distinguishes them, mixins.py line 30). -/
inductive RequestData
| single (it : Item)
| many (items : List Item)
deriving DecidableEq, Repr

/-- Outcome of a create request. -/
inductive CreateResult
| created (status : Nat) (body : List Item)
| validationError (errs : List ErrSet)
deriving DecidableEq, Repr

/-- Collection-mode validity (`ListSerializer.is_valid`): the list is valid
exactly when every child serializer is. -/
def listIsValid (isValid : Item → Bool) (items : List Item) : Bool :=
  items.all isValid

/-- Collection-mode error detail (`ListSerializer.errors`): one entry per
child, empty for valid children. -/
def listErrors (isValid : Item → Bool) (errorsOf : Item → ErrSet)
    (items : List Item) : List ErrSet :=
  items.map (fun it => if isValid it then [] else errorsOf it)

/-- Embedding of `BulkCreateModelMixin.create` (mixins.py lines 29-39).
`superCreate` is the inherited single-object `CreateModelMixin.create`
path, a parameter because it lives in the rest_framework dependency, not in
this repository.  For a list body the serializer is built with `many=True`,
validated with `raise_exception=True`, and only then is
`perform_bulk_create` (the persistence step) reached. -/
def create (superCreate : Item → Db → CreateResult × Db)
    (isValid : Item → Bool) (errorsOf : Item → ErrSet)
    (performBulkCreate : Db → List Item → Db) (db : Db) :
    RequestData → CreateResult × Db
  | RequestData.single it => superCreate it db
  | RequestData.many items =>
    if listIsValid isValid items then
      (CreateResult.created 201 items, performBulkCreate db items)
    else
      (CreateResult.validationError (listErrors isValid errorsOf items), db)

/-- C5: a non-list request body is delegated verbatim to the standard
single-object create path: the response (status and body) and the resulting
database are exactly what that path produces, for every such path. -/
theorem create_single_delegates (superCreate : Item → Db → CreateResult × Db)
    (isValid : Item → Bool) (errorsOf : Item → ErrSet)
    (performBulkCreate : Db → List Item → Db) (db : Db) (it : Item) :
    create superCreate isValid errorsOf performBulkCreate db
      (RequestData.single it) = superCreate it db :=
  rfl

/-- C6: if any item of a list create payload fails collection-mode
validation, `create` raises the validation error with the per-item error
detail and returns the database unchanged, whatever the persistence step
`performBulkCreate` would have done: the error is raised before persistence
is attempted, so zero records are persisted. -/
theorem create_bulk_invalid_no_persist (superCreate : Item → Db → CreateResult × Db)
    (isValid : Item → Bool) (errorsOf : Item → ErrSet) (db : Db)
    (items : List Item)
    (hinv : ∃ it ∈ items, isValid it = false) :
    ∀ performBulkCreate,
      create superCreate isValid errorsOf performBulkCreate db
        (RequestData.many items)
        = (CreateResult.validationError (listErrors isValid errorsOf items), db) := by
  intro performBulkCreate
  obtain ⟨x, hmem, hxv⟩ := hinv
  have hall : listIsValid isValid items = false := by
    unfold listIsValid
    rcases hcase : items.all isValid with _ | _
    · rfl
    · exact absurd (List.all_eq_true.mp hcase x hmem) (by simp [hxv])
  simp [create, hall]

/-- Witness for C6 at a concrete two-item payload whose first item is
invalid. -/
theorem create_bulk_invalid_no_persist_witness :
    create (fun it d => (CreateResult.created 201 [it], d)) uIsValid uErrors
      (fun d its => d ++ its.map (fun it => Record.mk 9 it.flds)) uDb
      (RequestData.many uItems)
      = (CreateResult.validationError (listErrors uIsValid uErrors uItems), uDb) :=
  create_bulk_invalid_no_persist (fun it d => (CreateResult.created 201 [it], d))
    uIsValid uErrors uDb uItems (by decide)
    (fun d its => d ++ its.map (fun it => Record.mk 9 it.flds))

/-- Embedding of the `lookup_url_kwarg or lookup_field` resolution at the
top of `BulkUpdateModelMixin.get_object` (mixins.py line 52), with Python's
falsy `or`: an absent or empty `lookup_url_kwarg` falls back to
`lookup_field`. -/
def resolvedLookupKwarg (cfg : ViewConfig) : String :=
  match cfg.lookup_url_kwarg with
  | some s => if s = "" then cfg.lookup_field else s
  | none => cfg.lookup_field

/-- Embedding of `BulkUpdateModelMixin.get_object` (mixins.py lines 51-65):
if the resolved lookup kwarg is among the view's URL kwargs, delegate to
the inherited `GenericAPIView.get_object` (the parameter `superGetObject`,
living in the rest_framework dependency); otherwise return `None`. -/
def get_object (cfg : ViewConfig) (kwargs : List (String × Nat))
    (superGetObject : Option Record) : Option Record :=
  if resolvedLookupKwarg cfg ∈ kwargs.map Prod.fst then superGetObject
  else none

/-- C8: when the resolved identifier kwarg is absent from the view's URL
kwargs, `get_object` returns the empty result `none` for every inherited
lookup — it neither raises nor delegates; when the kwarg is present, the
standard single-object lookup is applied unchanged. -/
theorem get_object_spec (cfg : ViewConfig) (kwargs : List (String × Nat))
    (superGetObject : Option Record) :
    (resolvedLookupKwarg cfg ∉ kwargs.map Prod.fst →
       get_object cfg kwargs superGetObject = none)
    ∧ (resolvedLookupKwarg cfg ∈ kwargs.map Prod.fst →
       get_object cfg kwargs superGetObject = superGetObject) := by
  constructor
  · intro h
    simp [get_object, h]
  · intro h
    simp [get_object, h]

/-- Witness for C8: with lookup field `"pk"`, empty URL kwargs give `none`
even when the inherited lookup would find a record, and kwargs containing
`"pk"` delegate to the inherited lookup. -/
theorem get_object_spec_witness :
    get_object (ViewConfig.mk "pk" none) [] (some (Record.mk 1 [])) = none
    ∧ get_object (ViewConfig.mk "pk" none) [("pk", 1)] (some (Record.mk 1 []))
        = some (Record.mk 1 []) :=
  ⟨(get_object_spec (ViewConfig.mk "pk" none) [] (some (Record.mk 1 []))).1
     (by decide),
   (get_object_spec (ViewConfig.mk "pk" none) [("pk", 1)]
     (some (Record.mk 1 []))).2 (by decide)⟩
